import Mathlib

/-!
Shallow embedding of the identity-reconciliation and entitlement-accounting
core of the cjpol-agent-web-v2-api backend (TypeScript/Express/Supabase).

Embedded source files:
- `src/services/messageService.ts` (user-service part): `getUserById`,
  `getUserByEmail`, `getUserByWordPressId`, `createUser`, `updateUser`,
  `getUserOrCreateFromWordPress`, `mapMembershipToCredits`,
  `determineUserRole`, `updateUserMembership`, `consumeCredits`.
- `src/utils/wordpressAuth.ts`: `getMembershipLevel`,
  `verifyWordPressCredentialsDevMode`, `verifyWordPressCredentials`.
- `src/services/authService.ts`: `authenticateWithWordPress`.
- `src/utils/jwt.ts`: `generateToken`, `verifyToken`.
- `src/config/credits.ts`, config `roles`, config `env`: the constants.

Modelling conventions: the Supabase `cjpol_users` table is a `List User`
(a `Store`); `.single()` lookups are `List.find?`; supabase `update ... eq`
maps over every row matching the key; JS `number` credits are `Int`;
JS `undefined`-able update payload fields are `Option`; thrown `ApiError`
subclasses are an `ApiErr` inductive carried in `Except`; network calls
(WordPress REST, the JWT library internals) are oracle parameters.
-/

/-- Error taxonomy: embeds the `ApiError` subclasses of `src/utils/errors.ts`
that the embedded code throws, each carrying its message string. -/
inductive ApiErr where
  | badRequest (msg : String)
  | unauthorized (msg : String)
  | notFound (msg : String)
  | conflict (msg : String)
  | internal (msg : String)
deriving Repr, DecidableEq

/-- Embeds the process environment of `src/config/env.ts` (the fields the
embedded functions read). -/
structure Env where
  NODE_ENV : String
  DEV_MODE_EMAIL : String
  DEV_MODE_PASSWORD : String
  DEV_MODE_USER_ID : String
  DEV_MODE_USER_NAME : String
  DEV_MODE_CREDITS : Int
  JWT_SECRET : String
  JWT_EXPIRATION : Int
deriving Repr, DecidableEq

/-- `IS_DEVELOPMENT` from `src/config/env.ts`: `NODE_ENV === 'development'`. -/
def IS_DEVELOPMENT (env : Env) : Bool := env.NODE_ENV == "development"

/-- `IS_PRODUCTION` from `src/config/env.ts`: `NODE_ENV === 'production'`. -/
def IS_PRODUCTION (env : Env) : Bool := env.NODE_ENV == "production"

/-- `DEFAULT_CREDITS_NEW_USER` from `src/config/credits.ts`. -/
def DEFAULT_CREDITS_NEW_USER : Int := 5

/-- `MEMBERSHIP_CREDITS.FREE` from `src/config/credits.ts`. -/
def MEMBERSHIP_CREDITS_FREE : Int := 5

/-- `MEMBERSHIP_CREDITS.BASIC` from `src/config/credits.ts`. -/
def MEMBERSHIP_CREDITS_BASIC : Int := 10

/-- `MEMBERSHIP_CREDITS.COMPLETE` from `src/config/credits.ts`. -/
def MEMBERSHIP_CREDITS_COMPLETE : Int := 20

/-- `MEMBERSHIP_CREDITS.DEVELOPER` from `src/config/credits.ts`. -/
def MEMBERSHIP_CREDITS_DEVELOPER : Int := 500

/-- `MEMBERSHIP_LEVELS.FREE` from `src/config/credits.ts`. -/
def MEMBERSHIP_LEVELS_FREE : Int := 0

/-- `MEMBERSHIP_LEVELS.BASIC` from `src/config/credits.ts`. -/
def MEMBERSHIP_LEVELS_BASIC : Int := 1

/-- `MEMBERSHIP_LEVELS.COMPLETE` from `src/config/credits.ts`. -/
def MEMBERSHIP_LEVELS_COMPLETE : Int := 2

/-- `MEMBERSHIP_LEVELS.DEVELOPER` from `src/config/credits.ts`. -/
def MEMBERSHIP_LEVELS_DEVELOPER : Int := 999

/-- `MEMBERSHIP_NAMES.FREE` from `src/config/credits.ts`. -/
def MEMBERSHIP_NAMES_FREE : String := "free"

/-- `MEMBERSHIP_NAMES.BASIC` from `src/config/credits.ts`. -/
def MEMBERSHIP_NAMES_BASIC : String := "basic"

/-- `MEMBERSHIP_NAMES.COMPLETE` from `src/config/credits.ts`. -/
def MEMBERSHIP_NAMES_COMPLETE : String := "complete"

/-- `MEMBERSHIP_NAMES.DEVELOPER` from `src/config/credits.ts`. -/
def MEMBERSHIP_NAMES_DEVELOPER : String := "developer"

/-- `USER_ROLES.ADMIN` from the roles config. -/
def USER_ROLES_ADMIN : String := "admin"

/-- `USER_ROLES.USER` from the roles config. -/
def USER_ROLES_USER : String := "user"

/-- `WP_ROLE_MAPPING.ADMIN` from the roles config. -/
def WP_ROLE_MAPPING_ADMIN : String := "administrator"

/-- Embeds the `pmpro_membership` object of the WordPress user payload
(`src/utils/wordpressAuth.ts`, interface `WordPressUser`). -/
structure PmproMembership where
  id : String
  name : String
  level : String
  initial_payment : Int := 0
  billing_amount : Int := 0
  cycle_number : String := "0"
  cycle_period : String := "month"
  expiration : Option String := none
deriving Repr, DecidableEq

/-- Embeds interface `WordPressUser` of `src/utils/wordpressAuth.ts`.
`avatar_urls` is the size-keyed url map, as an association list. -/
structure WordPressUser where
  id : String
  email : String
  name : String
  roles : List String
  avatar_urls : List (String × String) := []
  pmpro_membership : Option PmproMembership := none
deriving Repr, DecidableEq

/-- Embeds interface `WordPressMembership` of `src/utils/wordpressAuth.ts`;
absent optional fields are `none`. -/
structure WordPressMembership where
  id : Int
  name : String
  description : Option String := none
  initial_payment : Option Int := none
  billing_amount : Option Int := none
  cycle_number : Option Int := none
  cycle_period : Option String := none
  expiration_number : Option Int := none
  expiration_period : Option String := none
  allow_signups : Option Bool := none
deriving Repr, DecidableEq

/-- Embeds interface `User` of the user service: one row of the
`cjpol_users` table. JS `number` credits are `Int`; nullable columns are
`Option`. -/
structure User where
  id : String
  email : String
  name : String
  role : String
  credits : Int
  subscription : String
  active : Bool
  wordpress_id : Option String := none
  picture : Option String := none
  wordpress_membership_id : Option Int := none
  wordpress_membership_name : Option String := none
  wordpress_membership_updated : Option String := none
  created_at : String := ""
  updated_at : String := ""
deriving Repr, DecidableEq

/-- The `cjpol_users` table. -/
abbrev Store := List User

/-- Accumulate decimal digits until the first non-digit. -/
def digitsVal : List Char → Nat → Nat
  | [], acc => acc
  | c :: cs, acc => if c.isDigit then digitsVal cs (acc * 10 + (c.toNat - 48)) else acc

/-- Longest leading-digit prefix value; `none` when the first character is
not a digit (models the NaN outcome of JS `parseInt`). -/
def leadingDigits : List Char → Option Nat
  | [] => none
  | c :: cs => if c.isDigit then some (digitsVal cs (c.toNat - 48)) else none

/-- Models JS `parseInt(s, 10)`: skip leading whitespace, optional sign,
then the longest digit prefix; `none` models `NaN`. -/
def jsParseInt (s : String) : Option Int :=
  match s.data.dropWhile (fun c => c.isWhitespace) with
  | '-' :: rest => (leadingDigits rest).map (fun n => -(n : Int))
  | '+' :: rest => (leadingDigits rest).map (fun n => (n : Int))
  | cs => (leadingDigits cs).map (fun n => (n : Int))

/-- Models JS `a || b` on an optional string `a` (empty string is falsy). -/
def jsOrStr (a : Option String) (b : Option String) : Option String :=
  match a with
  | some s => if s = "" then b else some s
  | none => b

/-- Models `wpUser.avatar_urls?.['96']`. -/
def avatar96 (w : WordPressUser) : Option String :=
  (w.avatar_urls.find? (fun p => p.1 == "96")).map (fun p => p.2)

/-- Embeds `getMembershipLevel` of `src/utils/wordpressAuth.ts`: maps the
raw `pmpro_membership` descriptor (parsing its `level` with `parseInt`) to a
canonical `WordPressMembership`; COMPLETE and BASIC are recognized, anything
else (including a malformed level) collapses to FREE; a user without
membership data gets the default FREE level. -/
def getMembershipLevel (wpUser : WordPressUser) : WordPressMembership :=
  match wpUser.pmpro_membership with
  | some membership =>
    let membershipId := jsParseInt membership.level
    if membershipId = some MEMBERSHIP_LEVELS_COMPLETE then
      { id := MEMBERSHIP_LEVELS_COMPLETE, name := MEMBERSHIP_NAMES_COMPLETE,
        description := some "",
        initial_payment := some membership.initial_payment,
        billing_amount := some membership.billing_amount,
        cycle_number := jsParseInt membership.cycle_number,
        cycle_period := some membership.cycle_period,
        expiration_number := some 0, expiration_period := some "",
        allow_signups := some true }
    else if membershipId = some MEMBERSHIP_LEVELS_BASIC then
      { id := MEMBERSHIP_LEVELS_BASIC, name := MEMBERSHIP_NAMES_BASIC,
        description := some "",
        initial_payment := some membership.initial_payment,
        billing_amount := some membership.billing_amount,
        cycle_number := jsParseInt membership.cycle_number,
        cycle_period := some membership.cycle_period,
        expiration_number := some 0, expiration_period := some "",
        allow_signups := some true }
    else
      { id := MEMBERSHIP_LEVELS_FREE, name := MEMBERSHIP_NAMES_FREE,
        description := some "",
        initial_payment := some membership.initial_payment,
        billing_amount := some membership.billing_amount,
        cycle_number := jsParseInt membership.cycle_number,
        cycle_period := some membership.cycle_period,
        expiration_number := some 0, expiration_period := some "",
        allow_signups := some true }
  | none =>
    { id := MEMBERSHIP_LEVELS_FREE, name := MEMBERSHIP_NAMES_FREE }

/-- Embeds `mapMembershipToCredits` of the user service: level-id table
lookup, DEVELOPER checked first, then COMPLETE, BASIC, default FREE. -/
def mapMembershipToCredits (membershipLevel : WordPressMembership) : Int :=
  if membershipLevel.id = MEMBERSHIP_LEVELS_DEVELOPER then
    MEMBERSHIP_CREDITS_DEVELOPER
  else
    let levelId := membershipLevel.id
    if levelId = MEMBERSHIP_LEVELS_COMPLETE then MEMBERSHIP_CREDITS_COMPLETE
    else if levelId = MEMBERSHIP_LEVELS_BASIC then MEMBERSHIP_CREDITS_BASIC
    else MEMBERSHIP_CREDITS_FREE

/-- Embeds `determineUserRole` of the user service: admin iff the WordPress
role list contains the administrator marker. -/
def determineUserRole (wpRoles : List String) : String :=
  if wpRoles.contains WP_ROLE_MAPPING_ADMIN then USER_ROLES_ADMIN
  else USER_ROLES_USER

/-- Update payload for `updateUser`: `none` models a JS `undefined` field,
which Supabase drops from the update (column untouched). -/
structure UserUpdate where
  email : Option String := none
  name : Option String := none
  role : Option String := none
  credits : Option Int := none
  subscription : Option String := none
  active : Option Bool := none
  wordpress_id : Option String := none
  picture : Option String := none
  wordpress_membership_id : Option Int := none
  wordpress_membership_name : Option String := none
  wordpress_membership_updated : Option String := none
deriving Repr, DecidableEq

/-- Apply an update payload to one row, stamping `updated_at` with `now`
(the user service always sends `updated_at: new Date().toISOString()`). -/
def applyUpdate (upd : UserUpdate) (now : String) (u : User) : User :=
  { u with
    email := upd.email.getD u.email,
    name := upd.name.getD u.name,
    role := upd.role.getD u.role,
    credits := upd.credits.getD u.credits,
    subscription := upd.subscription.getD u.subscription,
    active := upd.active.getD u.active,
    wordpress_id := match upd.wordpress_id with
      | some w => some w
      | none => u.wordpress_id,
    picture := match upd.picture with
      | some p => some p
      | none => u.picture,
    wordpress_membership_id := match upd.wordpress_membership_id with
      | some m => some m
      | none => u.wordpress_membership_id,
    wordpress_membership_name := match upd.wordpress_membership_name with
      | some m => some m
      | none => u.wordpress_membership_name,
    wordpress_membership_updated := match upd.wordpress_membership_updated with
      | some m => some m
      | none => u.wordpress_membership_updated,
    updated_at := now }

/-- Embeds `getUserById`: `.single()` row lookup by id, `NotFoundError`
when absent. -/
def getUserById (db : Store) (id : String) : Except ApiErr User :=
  match db.find? (fun u => u.id == id) with
  | some u => .ok u
  | none => .error (.notFound ("User with ID " ++ id ++ " not found"))

/-- Embeds `getUserByEmail`: row lookup by email, `null` when absent. -/
def getUserByEmail (db : Store) (email : String) : Option User :=
  db.find? (fun u => u.email == email)

/-- Embeds `getUserByWordPressId`: row lookup by the `wordpress_id` column,
`null` when absent. -/
def getUserByWordPressId (db : Store) (wordpressId : String) : Option User :=
  db.find? (fun u => u.wordpress_id == some wordpressId)

/-- Embeds `updateUser`: check existence via `getUserById`, then update the
rows matching the id and return the updated row. -/
def updateUser (db : Store) (id : String) (upd : UserUpdate) (now : String) :
    Except ApiErr (User × Store) :=
  match getUserById db id with
  | .error e => .error e
  | .ok _ =>
    match db.find? (fun u => u.id == id) with
    | none => .error (.internal "Failed to update user")
    | some u =>
      .ok (applyUpdate upd now u,
        db.map (fun v => if v.id == id then applyUpdate upd now v else v))

/-- Creation payload for `createUser` (the optional fields of the TS
parameter object). -/
structure CreateUserData where
  email : String
  name : String
  wordpress_id : Option String := none
  picture : Option String := none
  role : Option String := none
  active : Option Bool := none
  credits : Option Int := none
  subscription : Option String := none
  wordpress_membership_id : Option Int := none
  wordpress_membership_name : Option String := none
  wordpress_membership_updated : Option String := none
deriving Repr, DecidableEq

/-- Models JS `a || null` on an optional numeric field (`0` is falsy). -/
def jsOrNullInt (a : Option Int) : Option Int :=
  match a with
  | some n => if n = 0 then none else some n
  | none => none

/-- Embeds `createUser`: reject duplicate email with `ConflictError`, else
insert a fresh row (id generated by the caller-side uuid, modelled as the
`newId` argument) with the source's JS-falsy-aware defaults. -/
def createUser (db : Store) (d : CreateUserData) (newId now : String) :
    Except ApiErr (User × Store) :=
  match getUserByEmail db d.email with
  | some _ => .error (.conflict ("User with email " ++ d.email ++ " already exists"))
  | none =>
    let u : User :=
      { id := newId,
        email := d.email,
        name := d.name,
        wordpress_id := jsOrStr d.wordpress_id none,
        picture := jsOrStr d.picture none,
        role := (jsOrStr d.role none).getD USER_ROLES_USER,
        active := d.active.getD true,
        credits := d.credits.getD 0,
        subscription := (jsOrStr d.subscription none).getD MEMBERSHIP_NAMES_FREE,
        wordpress_membership_id := jsOrNullInt d.wordpress_membership_id,
        wordpress_membership_name := jsOrStr d.wordpress_membership_name none,
        wordpress_membership_updated := jsOrStr d.wordpress_membership_updated none,
        created_at := now,
        updated_at := now }
    .ok (u, db ++ [u])

/-- `isDevModeUser` as computed at each branch of
`getUserOrCreateFromWordPress`: development mode and the identity's email
equals the configured dev email. -/
def isDevModeUser (env : Env) (wpUser : WordPressUser) : Bool :=
  IS_DEVELOPMENT env && wpUser.email == env.DEV_MODE_EMAIL

/-- `userRole` as computed at each branch of `getUserOrCreateFromWordPress`:
dev-mode users are forced admin, otherwise `determineUserRole`. -/
def resolvedRole (env : Env) (wpUser : WordPressUser) : String :=
  if isDevModeUser env wpUser then USER_ROLES_ADMIN
  else determineUserRole wpUser.roles

/-- Embeds `getUserOrCreateFromWordPress` (the Identity Reconciler):
lookup by WordPress id, then by email, else create; sync attributes on the
found paths only when the guarded fields differ (wordpress-id path) or
unconditionally attach the WordPress id (email path); the create path
resolves membership and maps it to initial credits and subscription.
`newId` models the generated uuid, `now` the current timestamp. -/
def getUserOrCreateFromWordPress (env : Env) (db : Store)
    (wpUser : WordPressUser) (newId now : String) :
    Except ApiErr (User × Store) :=
  match getUserByWordPressId db wpUser.id with
  | some userByWordPressId =>
    let isDev := isDevModeUser env wpUser
    let userRole := resolvedRole env wpUser
    if userByWordPressId.name != wpUser.name
        || userByWordPressId.email != wpUser.email
        || userByWordPressId.role != userRole
        || (isDev && userByWordPressId.credits != env.DEV_MODE_CREDITS) then
      updateUser db userByWordPressId.id
        { name := some wpUser.name,
          email := some wpUser.email,
          role := some userRole,
          picture := jsOrStr (avatar96 wpUser) userByWordPressId.picture,
          credits := if isDev then some env.DEV_MODE_CREDITS else none,
          subscription := if isDev then some MEMBERSHIP_NAMES_DEVELOPER else none }
        now
    else
      .ok (userByWordPressId, db)
  | none =>
    match getUserByEmail db wpUser.email with
    | some userByEmail =>
      let isDev := isDevModeUser env wpUser
      let userRole := resolvedRole env wpUser
      updateUser db userByEmail.id
        { wordpress_id := some wpUser.id,
          name := some wpUser.name,
          role := some userRole,
          picture := jsOrStr (avatar96 wpUser) userByEmail.picture,
          credits := if isDev then some env.DEV_MODE_CREDITS else none,
          subscription := if isDev then some MEMBERSHIP_NAMES_DEVELOPER else none }
        now
    | none =>
      let isDev := isDevModeUser env wpUser
      let userRole := resolvedRole env wpUser
      let membershipLevel := getMembershipLevel wpUser
      let initialCredits : Int :=
        if isDev then env.DEV_MODE_CREDITS else mapMembershipToCredits membershipLevel
      let initialSubscription : String :=
        if isDev then MEMBERSHIP_NAMES_DEVELOPER
        else if membershipLevel.id = MEMBERSHIP_LEVELS_COMPLETE then MEMBERSHIP_NAMES_COMPLETE
        else if membershipLevel.id = MEMBERSHIP_LEVELS_BASIC then MEMBERSHIP_NAMES_BASIC
        else MEMBERSHIP_NAMES_FREE
      createUser db
        { email := wpUser.email,
          name := wpUser.name,
          wordpress_id := some wpUser.id,
          picture := avatar96 wpUser,
          role := some userRole,
          credits := some initialCredits,
          subscription := some initialSubscription,
          wordpress_membership_id := some membershipLevel.id,
          wordpress_membership_name := some initialSubscription,
          wordpress_membership_updated := some now }
        newId now

/-- Embeds `updateUserMembership`: maps the resolved membership level to
credits and a subscription label and writes them (with the membership
snapshot columns) to the user's row, unconditionally. -/
def updateUserMembership (db : Store) (userId : String)
    (membershipLevel : WordPressMembership) (now : String) :
    Except ApiErr (User × Store) :=
  let credits := mapMembershipToCredits membershipLevel
  let subscription :=
    if membershipLevel.id = MEMBERSHIP_LEVELS_COMPLETE then MEMBERSHIP_NAMES_COMPLETE
    else if membershipLevel.id = MEMBERSHIP_LEVELS_BASIC then MEMBERSHIP_NAMES_BASIC
    else if membershipLevel.id = MEMBERSHIP_LEVELS_DEVELOPER then MEMBERSHIP_NAMES_DEVELOPER
    else MEMBERSHIP_NAMES_FREE
  updateUser db userId
    { credits := some credits,
      subscription := some subscription,
      wordpress_membership_id := some membershipLevel.id,
      wordpress_membership_name := some subscription,
      wordpress_membership_updated := some now }
    now

/-- Embeds `consumeCredits` (the Credit Ledger): read the balance, return
`false` without mutation when it is below `amount`, else persist the
decremented balance and return `true`; every thrown error is caught and
reported as `false`. -/
def consumeCredits (db : Store) (userId : String) (amount : Int) (now : String) :
    Bool × Store :=
  match getUserById db userId with
  | .error _ => (false, db)
  | .ok user =>
    if user.credits < amount then (false, db)
    else
      match updateUser db userId { credits := some (user.credits - amount) } now with
      | .error _ => (false, db)
      | .ok (_, db2) => (true, db2)

/-- The control flow of `consumeCredits` with its two storage operations
(the `getUserById` read and the `updateUser` write) abstracted as oracle
outcomes, to expose the storage-failure behavior of the try/catch: any
storage error is caught and the call returns `false`. -/
def consumeCreditsWith (readResult : Except ApiErr User)
    (writeResult : Except ApiErr Unit) (amount : Int) : Bool :=
  match readResult with
  | .error _ => false
  | .ok user =>
    if user.credits < amount then false
    else
      match writeResult with
      | .error _ => false
      | .ok _ => true

/-- `ip === '127.0.0.1' || ip === '::1'` from the dev-mode IP restriction. -/
def isLocalhost (ip : String) : Bool := ip == "127.0.0.1" || ip == "::1"

/-- The private-network test of the dev-mode IP restriction. -/
def isPrivateNetwork (ip : String) : Bool :=
  ip.startsWith "10." || ip.startsWith "172.16." || ip.startsWith "192.168."

/-- The synthetic WordPress user returned by the dev-mode verifier on a
credential match: administrator role and a mock DEVELOPER-tier
`pmpro_membership` whose level is the DEVELOPER id rendered as a string. -/
def devModeUser (env : Env) : WordPressUser :=
  { id := env.DEV_MODE_USER_ID,
    email := env.DEV_MODE_EMAIL,
    name := env.DEV_MODE_USER_NAME,
    roles := ["administrator"],
    avatar_urls := [],
    pmpro_membership := some
      { id := toString MEMBERSHIP_LEVELS_DEVELOPER,
        name := "Developer Plan",
        level := toString MEMBERSHIP_LEVELS_DEVELOPER,
        initial_payment := 0,
        billing_amount := 0,
        cycle_number := "0",
        cycle_period := "month",
        expiration := none } }

/-- Embeds `verifyWordPressCredentialsDevMode` of `src/utils/wordpressAuth.ts`:
missing fields are a `BadRequestError`; outside development mode the call is
rejected; misconfigured or short (< 12 chars) fallback credentials are
rejected; a request IP outside loopback/private ranges is rejected; then the
supplied pair must exactly match the configured pair (the mismatch throw is
re-wrapped by the function's own catch into the generic dev-mode failure).
`reqIp` is the optional `req.ip`. -/
def verifyWordPressCredentialsDevMode (env : Env) (username password : String)
    (reqIp : Option String) : Except ApiErr WordPressUser :=
  if username = "" || password = "" then
    .error (.badRequest "Email and password are required")
  else if !(IS_DEVELOPMENT env) then
    .error (.unauthorized "Dev mode authentication is only available in development environment")
  else if env.DEV_MODE_EMAIL = "" || env.DEV_MODE_PASSWORD = ""
      || env.DEV_MODE_PASSWORD.length < 12 then
    .error (.unauthorized "Dev mode authentication is not properly configured")
  else if (match reqIp with
      | some ip => !(isLocalhost ip) && !(isPrivateNetwork ip)
      | none => false) then
    .error (.unauthorized "Dev mode authentication is only available from local networks")
  else if username = env.DEV_MODE_EMAIL && password = env.DEV_MODE_PASSWORD then
    .ok (devModeUser env)
  else
    .error (.unauthorized "Authentication failed in dev mode")

/-- Embeds `verifyWordPressCredentials` (the Credential Verifier chain):
try the remote JWT check (its outcome, a network effect, is the
`remoteResult` oracle), and only in development mode fall back to the
dev-mode verifier; all failures collapse into one generic
`UnauthorizedError` at the boundary. -/
def verifyWordPressCredentials (env : Env) (username password : String)
    (reqIp : Option String) (remoteResult : Except ApiErr WordPressUser) :
    Except ApiErr WordPressUser :=
  if username = "" || password = "" then
    .error (.badRequest "Email and password are required")
  else
    match remoteResult with
    | .ok wpUser => .ok wpUser
    | .error _ =>
      if IS_DEVELOPMENT env then
        match verifyWordPressCredentialsDevMode env username password reqIp with
        | .ok wpUser => .ok wpUser
        | .error _ =>
          .error (.unauthorized "Authentication failed. Please check server logs for details.")
      else
        .error (.unauthorized "Authentication failed. Please check server logs for details.")

/-- Embeds interface `JwtUserPayload` of `src/utils/jwt.ts`. -/
structure JwtUserPayload where
  id : String
  email : String
  role : String
deriving Repr, DecidableEq

/-- A signed JWT as issued by `jwt.sign(user, JWT_SECRET, expiresIn)`:
the claim payload, issued-at and expiry times (seconds), and the secret the
token was signed with (standing for its signature). -/
structure SignedToken where
  payload : JwtUserPayload
  iat : Int
  exp : Int
  secret : String
deriving Repr, DecidableEq

/-- Embeds `generateToken` of `src/utils/jwt.ts`: sign the payload with the
configured secret and an expiry of `JWT_EXPIRATION` seconds from issuance
(`nowSec` is the issuance clock). -/
def generateToken (env : Env) (nowSec : Int) (user : JwtUserPayload) : SignedToken :=
  { payload := user, iat := nowSec, exp := nowSec + env.JWT_EXPIRATION,
    secret := env.JWT_SECRET }

/-- Embeds `verifyToken` of `src/utils/jwt.ts` over the standard semantics
of `jwt.verify`: a signature mismatch is a `JsonWebTokenError`, mapped by
the source to `UnauthorizedError('Invalid token')`; an expired token
(expiry not after the verification clock) is a `TokenExpiredError`, mapped
to `UnauthorizedError('Token expired')`; otherwise the decoded claims are
returned. -/
def verifyToken (env : Env) (nowSec : Int) (token : SignedToken) :
    Except ApiErr JwtUserPayload :=
  if token.secret != env.JWT_SECRET then
    .error (.unauthorized "Invalid token")
  else if token.exp ≤ nowSec then
    .error (.unauthorized "Token expired")
  else
    .ok token.payload

/-- The catch clause of `authenticateWithWordPress`: `UnauthorizedError`
and `BadRequestError` are re-thrown, anything else becomes a generic
`UnauthorizedError('Authentication failed')`. -/
def wrapAuthErr : ApiErr → ApiErr
  | .unauthorized msg => .unauthorized msg
  | .badRequest msg => .badRequest msg
  | _ => .unauthorized "Authentication failed"

/-- Embeds `authenticateWithWordPress` of `src/services/authService.ts`:
verify credentials (the remote outcome is the `remoteResult` oracle),
reconcile into the local store, reject inactive accounts, then
unconditionally resolve the membership level and write it through
`updateUserMembership`, and finally issue a token for the reconciled user.
Returns the reconciled user, the token, and the final store. -/
def authenticateWithWordPress (env : Env) (db : Store)
    (username password : String) (reqIp : Option String)
    (remoteResult : Except ApiErr WordPressUser)
    (newId now : String) (nowSec : Int) :
    Except ApiErr (User × SignedToken × Store) :=
  if username = "" || password = "" then
    .error (wrapAuthErr (.badRequest "Email and password are required"))
  else
    match verifyWordPressCredentials env username password reqIp remoteResult with
    | .error e => .error (wrapAuthErr e)
    | .ok wpUser =>
      match getUserOrCreateFromWordPress env db wpUser newId now with
      | .error e => .error (wrapAuthErr e)
      | .ok (user, db1) =>
        if !user.active then
          .error (wrapAuthErr (.unauthorized "User account is inactive"))
        else
          let membershipLevel := getMembershipLevel wpUser
          match updateUserMembership db1 user.id membershipLevel now with
          | .error e => .error (wrapAuthErr e)
          | .ok (_, db2) =>
            let payload : JwtUserPayload :=
              { id := user.id, email := user.email, role := user.role }
            .ok (user, generateToken env nowSec payload, db2)

/-- `applyUpdate` never touches the primary key. -/
theorem applyUpdate_id (upd : UserUpdate) (now : String) (v : User) :
    (applyUpdate upd now v).id = v.id := rfl

/-- `getUserById` succeeds exactly on the first row matching the id. -/
theorem getUserById_eq_ok (db : Store) (id : String) (u : User) :
    getUserById db id = .ok u ↔ db.find? (fun v => v.id == id) = some u := by
  unfold getUserById
  cases h : db.find? (fun v => v.id == id) <;> simp [h]

/-- If some member satisfies the predicate, `find?` returns a witness. -/
theorem exists_find?_of_mem {α : Type} (q : α → Bool) {l : List α} {u : α}
    (hu : u ∈ l) (hq : q u = true) : ∃ v, l.find? q = some v := by
  induction l with
  | nil => cases hu
  | cons a l ih =>
    by_cases h : q a = true
    · exact ⟨a, by simp [List.find?_cons, h]⟩
    · rcases List.mem_cons.mp hu with rfl | hm
      · exact absurd hq h
      · rcases ih hm with ⟨v, hv⟩
        have h' : q a = false := by simpa using h
        exact ⟨v, by simp [List.find?_cons, h', hv]⟩

/-- Unfold `find?` on a cons for the row-id predicate. -/
theorem find?_cons_id (a : User) (l : List User) (id : String) :
    (a :: l).find? (fun v => v.id == id)
      = if a.id == id then some a else l.find? (fun v => v.id == id) := by
  cases h : (a.id == id) <;> simp [List.find?_cons, h]

/-- Looking up an id in a per-id mapped store finds the mapped first match,
provided the mapping preserves ids. -/
theorem find?_map_update (db : Store) (id : String) (g : User → User)
    (hg : ∀ v, (g v).id = v.id) :
    (db.map (fun v => if v.id == id then g v else v)).find? (fun v => v.id == id)
      = (db.find? (fun v => v.id == id)).map g := by
  induction db with
  | nil => rfl
  | cons a l ih =>
    cases h : (a.id == id) with
    | true =>
      have hga : ((g a).id == id) = true := by rw [hg]; exact h
      rw [List.map_cons, if_pos h, find?_cons_id, find?_cons_id, if_pos hga, if_pos h]
      rfl
    | false =>
      have hna : ¬((a.id == id) = true) := by simp [h]
      rw [List.map_cons, if_neg hna, find?_cons_id, find?_cons_id, if_neg hna,
        if_neg hna, ih]

/-- When the row exists, `updateUser` returns the updated first match and
the per-row-mapped store. -/
theorem updateUser_of_found (db : Store) (id : String) (upd : UserUpdate)
    (now : String) (u : User)
    (hfind : db.find? (fun v => v.id == id) = some u) :
    updateUser db id upd now
      = .ok (applyUpdate upd now u,
          db.map (fun v => if v.id == id then applyUpdate upd now v else v)) := by
  unfold updateUser getUserById
  simp [hfind]

/-- Claim C1: for a stored balance B ≥ 0 and a consume amount ≥ 1,
`consumeCredits` returns `false` and leaves the store untouched when
B < amount, and otherwise returns `true` and persists exactly B − amount,
which is still non-negative — the balance never becomes negative. -/
theorem consumeCredits_spec (db : Store) (userId : String) (amount : Int)
    (now : String) (u : User)
    (hget : getUserById db userId = .ok u)
    (hB : 0 ≤ u.credits) (hamt : 1 ≤ amount) :
    (u.credits < amount → consumeCredits db userId amount now = (false, db))
    ∧ (amount ≤ u.credits →
        (consumeCredits db userId amount now).1 = true
        ∧ ∃ u2, getUserById (consumeCredits db userId amount now).2 userId = .ok u2
            ∧ u2.credits = u.credits - amount ∧ 0 ≤ u2.credits) := by
  have hfind : db.find? (fun v => v.id == userId) = some u :=
    (getUserById_eq_ok db userId u).mp hget
  constructor
  · intro hlt
    simp [consumeCredits, hget, hlt]
  · intro hge
    have hnlt : ¬(u.credits < amount) := not_lt.mpr hge
    have hupd := updateUser_of_found db userId
      { credits := some (u.credits - amount) } now u hfind
    have hres : consumeCredits db userId amount now
        = (true, db.map (fun v => if v.id == userId then
            applyUpdate { credits := some (u.credits - amount) } now v else v)) := by
      simp [consumeCredits, hget, hnlt, hupd]
    have hdb2 : (consumeCredits db userId amount now).2
        = db.map (fun v => if v.id == userId then
            applyUpdate { credits := some (u.credits - amount) } now v else v) := by
      rw [hres]
    refine ⟨by rw [hres], ?_⟩
    refine ⟨applyUpdate { credits := some (u.credits - amount) } now u, ?_, rfl, ?_⟩
    · rw [hdb2]
      apply (getUserById_eq_ok _ _ _).mpr
      rw [find?_map_update db userId
        (applyUpdate { credits := some (u.credits - amount) } now) (fun v => rfl), hfind]
      rfl
    · simpa [applyUpdate] using sub_nonneg.mpr hge

/-- Concrete run of C1's insufficient-credits example: balance 0,
consume 1, returns false and the store is unchanged. -/
def dbC1 : Store :=
  [{ id := "u1", email := "a@x.com", name := "A", role := "user",
     credits := 0, subscription := "free", active := true }]

/-- Witness for C1 at the spec's own example: a user with balance 0 calling
consume with amount 1 gets `false` and the stored balance stays 0. -/
theorem consumeCredits_spec_witness :
    consumeCredits dbC1 "u1" 1 "t1" = (false, dbC1) :=
  (consumeCredits_spec dbC1 "u1" 1 "t1"
      { id := "u1", email := "a@x.com", name := "A", role := "user",
        credits := 0, subscription := "free", active := true }
      rfl (by decide) (by decide)).1 (by decide)

/-- Claim C10: `consumeCredits` does not validate the amount: for an
existing user with balance B ≥ 0 and any amount ≤ 0, the sufficiency check
passes, the call returns `true`, and the persisted balance is B − amount —
so a strictly negative amount strictly increases the stored balance. -/
theorem consumeCredits_nonpositive_amount (db : Store) (userId : String)
    (amount : Int) (now : String) (u : User)
    (hget : getUserById db userId = .ok u)
    (hB : 0 ≤ u.credits) (hamt : amount ≤ 0) :
    (consumeCredits db userId amount now).1 = true
    ∧ ∃ u2, getUserById (consumeCredits db userId amount now).2 userId = .ok u2
        ∧ u2.credits = u.credits - amount
        ∧ (amount < 0 → u.credits < u2.credits) := by
  have hfind : db.find? (fun v => v.id == userId) = some u :=
    (getUserById_eq_ok db userId u).mp hget
  have hge : amount ≤ u.credits := le_trans hamt hB
  have hnlt : ¬(u.credits < amount) := not_lt.mpr hge
  have hupd := updateUser_of_found db userId
    { credits := some (u.credits - amount) } now u hfind
  have hres : consumeCredits db userId amount now
      = (true, db.map (fun v => if v.id == userId then
          applyUpdate { credits := some (u.credits - amount) } now v else v)) := by
    simp [consumeCredits, hget, hnlt, hupd]
  have hdb2 : (consumeCredits db userId amount now).2
      = db.map (fun v => if v.id == userId then
          applyUpdate { credits := some (u.credits - amount) } now v else v) := by
    rw [hres]
  refine ⟨by rw [hres], ?_⟩
  refine ⟨applyUpdate { credits := some (u.credits - amount) } now u, ?_, rfl, ?_⟩
  · rw [hdb2]
    apply (getUserById_eq_ok _ _ _).mpr
    rw [find?_map_update db userId
      (applyUpdate { credits := some (u.credits - amount) } now) (fun v => rfl), hfind]
    rfl
  · intro hneg
    simp only [applyUpdate, Option.getD_some]
    omega

/-- Store for the C10 witness: one user with balance 3. -/
def dbC10 : Store :=
  [{ id := "u1", email := "a@x.com", name := "A", role := "user",
     credits := 3, subscription := "free", active := true }]

/-- Witness for C10: consuming amount −5 from balance 3 returns `true` and
persists balance 8. -/
theorem consumeCredits_nonpositive_amount_witness :
    (consumeCredits dbC10 "u1" (-5) "t1").1 = true
    ∧ ∃ u2, getUserById (consumeCredits dbC10 "u1" (-5) "t1").2 "u1" = .ok u2
        ∧ u2.credits = (3 : Int) - (-5)
        ∧ ((-5 : Int) < 0 → (3 : Int) < u2.credits) :=
  consumeCredits_nonpositive_amount dbC10 "u1" (-5) "t1"
    { id := "u1", email := "a@x.com", name := "A", role := "user",
      credits := 3, subscription := "free", active := true }
    rfl (by decide) (by decide)

/-- The level id produced by the resolver depends only on the parsed
numeric level: COMPLETE and BASIC are preserved, everything else (including
the DEVELOPER id and malformed levels) collapses to FREE. -/
theorem getMembershipLevel_id (w : WordPressUser) :
    (getMembershipLevel w).id
      = (match w.pmpro_membership with
        | some m =>
          if jsParseInt m.level = some MEMBERSHIP_LEVELS_COMPLETE then
            MEMBERSHIP_LEVELS_COMPLETE
          else if jsParseInt m.level = some MEMBERSHIP_LEVELS_BASIC then
            MEMBERSHIP_LEVELS_BASIC
          else MEMBERSHIP_LEVELS_FREE
        | none => MEMBERSHIP_LEVELS_FREE) := by
  cases hm : w.pmpro_membership with
  | none => simp [getMembershipLevel, hm]
  | some m =>
    simp only [getMembershipLevel, hm]
    split_ifs <;> rfl

/-- Claim C3 (amended): composing the membership resolver with the credit
mapper gives 20 for a descriptor whose level parses to the COMPLETE id, 10
for the BASIC id, and 5 for everything else (malformed, unknown — including
the DEVELOPER id 999 — or an absent descriptor); the composition never
yields the DEVELOPER allotment of 500, for any identity, including the one
synthesized by the local-fallback path. -/
theorem membership_credits_table (w : WordPressUser) :
    mapMembershipToCredits (getMembershipLevel w)
      = (match w.pmpro_membership with
        | some m =>
          if jsParseInt m.level = some MEMBERSHIP_LEVELS_COMPLETE then
            MEMBERSHIP_CREDITS_COMPLETE
          else if jsParseInt m.level = some MEMBERSHIP_LEVELS_BASIC then
            MEMBERSHIP_CREDITS_BASIC
          else MEMBERSHIP_CREDITS_FREE
        | none => MEMBERSHIP_CREDITS_FREE)
    ∧ mapMembershipToCredits (getMembershipLevel w) ≠ MEMBERSHIP_CREDITS_DEVELOPER := by
  have hid := getMembershipLevel_id w
  cases hm : w.pmpro_membership with
  | none =>
    simp only [hm] at hid
    constructor
    · simp only [hm, mapMembershipToCredits, hid]
      decide
    · simp only [mapMembershipToCredits, hid]
      decide
  | some m =>
    simp only [hm] at hid
    by_cases h2 : jsParseInt m.level = some MEMBERSHIP_LEVELS_COMPLETE
    · rw [if_pos h2] at hid
      constructor
      · simp only [hm]
        rw [if_pos h2]
        simp only [mapMembershipToCredits, hid]
        decide
      · simp only [mapMembershipToCredits, hid]
        decide
    · by_cases h1 : jsParseInt m.level = some MEMBERSHIP_LEVELS_BASIC
      · rw [if_neg h2, if_pos h1] at hid
        constructor
        · simp only [hm]
          rw [if_neg h2, if_pos h1]
          simp only [mapMembershipToCredits, hid]
          decide
        · simp only [mapMembershipToCredits, hid]
          decide
      · rw [if_neg h2, if_neg h1] at hid
        constructor
        · simp only [hm]
          rw [if_neg h2, if_neg h1]
          simp only [mapMembershipToCredits, hid]
          decide
        · simp only [mapMembershipToCredits, hid]
          decide

/-- A development-mode environment with the source's default dev values. -/
def envDev : Env :=
  { NODE_ENV := "development",
    DEV_MODE_EMAIL := "dev@example.com",
    DEV_MODE_PASSWORD := "devpassword123",
    DEV_MODE_USER_ID := "dev-user-id",
    DEV_MODE_USER_NAME := "Development User",
    DEV_MODE_CREDITS := 1000,
    JWT_SECRET := "jwt-secret",
    JWT_EXPIRATION := 86400 }

/-- Counterexample to claim C3 as stated: the membership descriptor
synthesized by the local-fallback (dev-mode) verification path carries
level id 999, yet composing the resolver with the credit mapper on it
yields 5, not 500 — the resolver collapses 999 to FREE before the mapper
can ever see the DEVELOPER id. -/
theorem membership_credits_devlevel_counterexample :
    mapMembershipToCredits (getMembershipLevel (devModeUser envDev)) = 5
    ∧ mapMembershipToCredits (getMembershipLevel (devModeUser envDev)) ≠ 500 := by
  refine ⟨by rfl, by decide⟩

/-- Claim C4: with production mode active, the dev-mode verification path
never returns a user for any input, and on any non-empty identifier/secret
pair — in particular one exactly matching the configured fallback pair — it
fails with the dev-mode-unavailable `UnauthorizedError`. -/
theorem devMode_unreachable_in_production (env : Env) (username password : String)
    (reqIp : Option String) (hprod : IS_PRODUCTION env = true) :
    (∀ w, verifyWordPressCredentialsDevMode env username password reqIp ≠ .ok w)
    ∧ (username ≠ "" → password ≠ "" →
        verifyWordPressCredentialsDevMode env username password reqIp
          = .error (.unauthorized
              "Dev mode authentication is only available in development environment")) := by
  have hne : env.NODE_ENV = "production" := by
    simpa [IS_PRODUCTION] using hprod
  have hdev : IS_DEVELOPMENT env = false := by
    simp [IS_DEVELOPMENT, hne]
  have hres : verifyWordPressCredentialsDevMode env username password reqIp
      = if username = "" || password = "" then
          .error (.badRequest "Email and password are required")
        else
          .error (.unauthorized
            "Dev mode authentication is only available in development environment") := by
    simp only [verifyWordPressCredentialsDevMode, hdev, Bool.not_false, if_true]
  constructor
  · intro w
    rw [hres]
    split <;> simp
  · intro hu hp
    rw [hres, if_neg]
    simp [hu, hp]

/-- Production environment for the C4 witness, with the fallback pair
configured exactly as supplied by the caller. -/
def envProd : Env :=
  { NODE_ENV := "production",
    DEV_MODE_EMAIL := "dev@example.com",
    DEV_MODE_PASSWORD := "devpassword123",
    DEV_MODE_USER_ID := "dev-user-id",
    DEV_MODE_USER_NAME := "Development User",
    DEV_MODE_CREDITS := 1000,
    JWT_SECRET := "jwt-secret",
    JWT_EXPIRATION := 86400 }

/-- Witness for C4: in production, supplying exactly the configured
fallback email and password from localhost still fails with the
authentication error. -/
theorem devMode_unreachable_in_production_witness :
    verifyWordPressCredentialsDevMode envProd "dev@example.com" "devpassword123"
        (some "127.0.0.1")
      = .error (.unauthorized
          "Dev mode authentication is only available in development environment") :=
  (devMode_unreachable_in_production envProd "dev@example.com" "devpassword123"
    (some "127.0.0.1") (by decide)).2 (by decide) (by decide)

/-- Counterexample to claim C6 as stated: when the storage read inside
`consumeCredits` fails with an internal error, the call does not surface an
`InternalError` — the catch swallows it and the call returns the ordinary
result `false`. -/
theorem consumeCredits_storage_failure_counterexample :
    consumeCreditsWith (.error (.internal "storage read failed"))
      (.error (.internal "storage write failed")) 1 = false := rfl

/-- Claim C6 (amended): a storage failure during `consumeCredits` is caught
and reported to the caller as the ordinary result `false` rather than a
surfaced `InternalError`; the call never masks a failed consume as success —
it returns `true` only when the read succeeded, the balance sufficed, and
the write succeeded. -/
theorem consumeCredits_storage_failure_swallowed
    (readResult : Except ApiErr User) (writeResult : Except ApiErr Unit)
    (amount : Int) :
    (∀ e, readResult = .error e →
        consumeCreditsWith readResult writeResult amount = false)
    ∧ (consumeCreditsWith readResult writeResult amount = true →
        ∃ u, readResult = .ok u ∧ ¬(u.credits < amount) ∧ writeResult = .ok ()) := by
  constructor
  · intro e he
    rw [he]
    rfl
  · intro htrue
    cases readResult with
    | error e => simp [consumeCreditsWith] at htrue
    | ok u =>
      refine ⟨u, rfl, ?_, ?_⟩
      · intro hlt
        simp [consumeCreditsWith, hlt] at htrue
      · by_cases hlt : u.credits < amount
        · simp [consumeCreditsWith, hlt] at htrue
        · cases writeResult with
          | error e => simp [consumeCreditsWith, hlt] at htrue
          | ok v => rfl

/-- Witness for C6 (amended): a failed storage write on a sufficient
balance reports `false`. -/
theorem consumeCredits_storage_failure_swallowed_witness :
    consumeCreditsWith (.error (.notFound "user missing")) (.ok ()) 1 = false :=
  (consumeCredits_storage_failure_swallowed (.error (.notFound "user missing")) (.ok ()) 1).1 (.notFound "user missing") rfl

/-- `getUserByWordPressId` returns members of the store. -/
theorem mem_of_getUserByWordPressId (db : Store) (wid : String) (u : User)
    (h : getUserByWordPressId db wid = some u) : u ∈ db :=
  List.mem_of_find?_eq_some h

/-- `getUserByEmail` returns members of the store. -/
theorem mem_of_getUserByEmail (db : Store) (email : String) (u : User)
    (h : getUserByEmail db email = some u) : u ∈ db :=
  List.mem_of_find?_eq_some h

/-- Claim C2: once an external identity has been reconciled (a row carrying
its subject id exists), reconciling again never changes the row count; and
when none of name, email, resolved role, or (for a dev identity) the
dev-credit constant differ from the stored values, the call performs no
update at all and returns the stored record with the store untouched. -/
theorem reconcile_idempotent (env : Env) (db : Store) (wpUser : WordPressUser)
    (u : User) (newId now : String)
    (hfind : getUserByWordPressId db wpUser.id = some u) :
    (∃ ru db2, getUserOrCreateFromWordPress env db wpUser newId now = .ok (ru, db2)
        ∧ db2.length = db.length)
    ∧ (u.name = wpUser.name → u.email = wpUser.email →
        u.role = resolvedRole env wpUser →
        (isDevModeUser env wpUser = true → u.credits = env.DEV_MODE_CREDITS) →
        getUserOrCreateFromWordPress env db wpUser newId now = .ok (u, db)) := by
  have hmem : u ∈ db := mem_of_getUserByWordPressId db wpUser.id u hfind
  constructor
  · simp only [getUserOrCreateFromWordPress, hfind]
    split
    · obtain ⟨w, hw⟩ := exists_find?_of_mem (fun v => v.id == u.id) hmem (by simp)
      rw [updateUser_of_found db u.id _ now w hw]
      exact ⟨_, _, rfl, by rw [List.length_map]⟩
    · exact ⟨u, db, rfl, rfl⟩
  · intro hname hemail hrole hdev
    have hcond : (u.name != wpUser.name || u.email != wpUser.email
        || u.role != resolvedRole env wpUser
        || (isDevModeUser env wpUser && u.credits != env.DEV_MODE_CREDITS)) = false := by
      cases hd : isDevModeUser env wpUser with
      | true => simp [hname, hemail, hrole, hdev hd]
      | false => simp [hname, hemail, hrole, hd]
    simp only [getUserOrCreateFromWordPress, hfind, hcond]
    rfl

/-- Store for the C2 witness: a user already linked to WordPress id 42 with
all synced attributes up to date. -/
def dbC2 : Store :=
  [{ id := "u2", email := "a@x.com", name := "Alice", role := "user",
     credits := 4, subscription := "free", active := true,
     wordpress_id := some "42" }]

/-- Identity for the C2 witness: same subject id, name, email, and a role
set resolving to `user`. -/
def wpC2 : WordPressUser :=
  { id := "42", email := "a@x.com", name := "Alice", roles := [] }

/-- Witness for C2: reconciling the already-synced identity again is a
no-op returning the stored record and the untouched store. -/
theorem reconcile_idempotent_witness :
    getUserOrCreateFromWordPress envProd dbC2 wpC2 "nid" "t1"
      = .ok ({ id := "u2", email := "a@x.com", name := "Alice",
                 role := "user", credits := 4, subscription := "free",
                 active := true, wordpress_id := some "42" }, dbC2) :=
  (reconcile_idempotent envProd dbC2 wpC2
      { id := "u2", email := "a@x.com", name := "Alice", role := "user",
        credits := 4, subscription := "free", active := true,
        wordpress_id := some "42" }
      "nid" "t1" rfl).2 rfl rfl rfl (fun h => by simp [isDevModeUser, IS_DEVELOPMENT, envProd] at h)

/-- Claim C7: for a non-dev identity, reconciliation always succeeds and
the resulting record's role is recomputed from the current external role
set — admin exactly when it contains the administrator marker, else user —
regardless of any previously stored role. -/
theorem reconcile_role_recomputed (env : Env) (db : Store)
    (wpUser : WordPressUser) (newId now : String)
    (hdev : isDevModeUser env wpUser = false) :
    ∃ ru db2, getUserOrCreateFromWordPress env db wpUser newId now = .ok (ru, db2)
      ∧ ru.role = (if wpUser.roles.contains WP_ROLE_MAPPING_ADMIN then
          USER_ROLES_ADMIN else USER_ROLES_USER) := by
  have hrole : resolvedRole env wpUser
      = if wpUser.roles.contains WP_ROLE_MAPPING_ADMIN then USER_ROLES_ADMIN
        else USER_ROLES_USER := by
    simp [resolvedRole, hdev, determineUserRole]
  cases hwp : getUserByWordPressId db wpUser.id with
  | some u =>
    have hmem : u ∈ db := mem_of_getUserByWordPressId db wpUser.id u hwp
    simp only [getUserOrCreateFromWordPress, hwp]
    split
    · obtain ⟨w, hw⟩ := exists_find?_of_mem (fun v => v.id == u.id) hmem (by simp)
      rw [updateUser_of_found db u.id _ now w hw]
      refine ⟨_, _, rfl, ?_⟩
      simp [applyUpdate, hrole]
    · next hcond =>
      have hcf : (u.name != wpUser.name || u.email != wpUser.email
          || u.role != resolvedRole env wpUser
          || (isDevModeUser env wpUser && u.credits != env.DEV_MODE_CREDITS))
            = false := by
        simpa using hcond
      have hur : u.role = resolvedRole env wpUser := by
        by_contra hne
        have hb : (u.role != resolvedRole env wpUser) = true := by
          simpa using hne
        simp [hb] at hcf
      refine ⟨u, db, rfl, ?_⟩
      rw [hur, hrole]
  | none =>
    cases hem : getUserByEmail db wpUser.email with
    | some u =>
      have hmem : u ∈ db := mem_of_getUserByEmail db wpUser.email u hem
      simp only [getUserOrCreateFromWordPress, hwp, hem]
      obtain ⟨w, hw⟩ := exists_find?_of_mem (fun v => v.id == u.id) hmem (by simp)
      rw [updateUser_of_found db u.id _ now w hw]
      refine ⟨_, _, rfl, ?_⟩
      simp [applyUpdate, hrole]
    | none =>
      simp only [getUserOrCreateFromWordPress, hwp, hem, createUser]
      refine ⟨_, _, rfl, ?_⟩
      rw [hrole]
      cases hc : wpUser.roles.contains WP_ROLE_MAPPING_ADMIN <;>
        simp [hc, jsOrStr, USER_ROLES_ADMIN, USER_ROLES_USER]

/-- Store for the C7 witness: an existing admin linked to WordPress id 42. -/
def dbC7 : Store :=
  [{ id := "u7", email := "c@x.com", name := "Carol", role := "admin",
     credits := 7, subscription := "free", active := true,
     wordpress_id := some "42" }]

/-- Identity for the C7 witness: same subject, administrator role removed. -/
def wpC7 : WordPressUser :=
  { id := "42", email := "c@x.com", name := "Carol", roles := ["editor"] }

/-- Witness for C7 at the spec's role-loss example: an existing admin whose
identity no longer carries the administrator role is reconciled to role
`user`. -/
theorem reconcile_role_recomputed_witness :
    ∃ ru db2, getUserOrCreateFromWordPress envProd dbC7 wpC7 "nid" "t1"
        = .ok (ru, db2)
      ∧ ru.role = (if wpC7.roles.contains WP_ROLE_MAPPING_ADMIN then
          USER_ROLES_ADMIN else USER_ROLES_USER) :=
  reconcile_role_recomputed envProd dbC7 wpC7 "nid" "t1" (by decide)

/-- Store for C8: a user findable by email that already carries a
different, non-null WordPress subject id (100). -/
def dbC8 : Store :=
  [{ id := "u8", email := "b@x.com", name := "B", role := "user",
     credits := 5, subscription := "free", active := true,
     wordpress_id := some "100" }]

/-- Incoming identity for C8: same email, a different subject id (200). -/
def wpC8 : WordPressUser :=
  { id := "200", email := "b@x.com", name := "B", roles := [] }

/-- The row C8's reconciliation writes: the stored subject id 100 silently
replaced by 200. -/
def u8upd : User :=
  { id := "u8", email := "b@x.com", name := "B", role := "user",
    credits := 5, subscription := "free", active := true,
    wordpress_id := some "200", updated_at := "t1" }

/-- Claim C8, evaluated at the failing input: when the email-matched record
already carries a different non-null subject id, reconciliation does not
reject with an `InternalError` — it succeeds and silently overwrites the
stored subject id with the incoming identity's id. -/
theorem email_promotion_overwrites_subject_id :
    getUserOrCreateFromWordPress envProd dbC8 wpC8 "nid" "t1" = .ok (u8upd, [u8upd])
    ∧ ∀ e, getUserOrCreateFromWordPress envProd dbC8 wpC8 "nid" "t1" ≠ .error e := by
  have h0 : getUserOrCreateFromWordPress envProd dbC8 wpC8 "nid" "t1"
      = .ok (u8upd, [u8upd]) := rfl
  refine ⟨h0, ?_⟩
  intro e h
  rw [h0] at h
  exact Except.noConfusion h

/-- Stored user for C5: membership snapshot already up to date (FREE,
level id 0, label free), with 2 of the 5 allotted credits remaining after
mid-session consumption. -/
def u5 : User :=
  { id := "u5", email := "a@x.com", name := "Alice", role := "user",
    credits := 2, subscription := "free", active := true,
    wordpress_id := some "42", wordpress_membership_id := some 0,
    wordpress_membership_name := some "free",
    wordpress_membership_updated := some "t0" }

/-- Store for C5. -/
def dbC5 : Store := [u5]

/-- Identity for C5: a non-dev user whose synced attributes all match the
stored record; no membership descriptor (FREE). -/
def wpC5 : WordPressUser :=
  { id := "42", email := "a@x.com", name := "Alice", roles := [] }

/-- The row after C5's login-time sync: credits reset to the FREE
allotment 5 even though nothing about the membership changed. -/
def u5sync : User :=
  { id := "u5", email := "a@x.com", name := "Alice", role := "user",
    credits := 5, subscription := "free", active := true,
    wordpress_id := some "42", wordpress_membership_id := some 0,
    wordpress_membership_name := some "free",
    wordpress_membership_updated := some "t1", updated_at := "t1" }

/-- The token issued in C5's run. -/
def tokC5 : SignedToken :=
  { payload := { id := "u5", email := "a@x.com", role := "user" },
    iat := 0, exp := 86400, secret := "jwt-secret" }

/-- Counterexample to claim C5 as stated: a successful authentication of a
non-dev user whose stored membership fields are fully up to date still
rewrites the stored balance — the 2 remaining credits are reset to the
membership-mapped 5 by the unconditional login-time sync. -/
theorem login_sync_overwrites_credits_counterexample :
    authenticateWithWordPress envProd dbC5 "a@x.com" "pw" none (.ok wpC5)
        "nid" "t1" 0
      = .ok (u5, tokC5, [u5sync])
    ∧ u5.credits = 2 ∧ u5sync.credits = 5 :=
  ⟨rfl, rfl, rfl⟩

/-- A successful `updateUser` leaves the store per-row mapped. -/
theorem updateUser_ok_shape (db : Store) (id : String) (upd : UserUpdate)
    (now : String) (w : User) (db2 : Store)
    (h : updateUser db id upd now = .ok (w, db2)) :
    db2 = db.map (fun v => if v.id == id then applyUpdate upd now v else v) := by
  unfold updateUser getUserById at h
  cases hf : db.find? (fun v => v.id == id) with
  | none => rw [hf] at h; simp at h
  | some u =>
    rw [hf] at h
    simp only [Except.ok.injEq, Prod.mk.injEq] at h
    exact h.2.symm

/-- A successful `updateUserMembership` is an `updateUser` whose payload
carries exactly the membership-mapped credits. -/
theorem updateUserMembership_ok_shape (db : Store) (id : String)
    (lvl : WordPressMembership) (now : String) (w : User) (db2 : Store)
    (h : updateUserMembership db id lvl now = .ok (w, db2)) :
    ∃ upd : UserUpdate, upd.credits = some (mapMembershipToCredits lvl)
      ∧ db2 = db.map (fun v => if v.id == id then applyUpdate upd now v else v) := by
  simp only [updateUserMembership] at h
  exact ⟨_, rfl, updateUser_ok_shape db id _ now w db2 h⟩

/-- Any row found by id in a store just updated with a concrete credits
payload carries exactly that credits value. -/
theorem credits_of_find?_in_updated (db1 : Store) (id : String)
    (upd : UserUpdate) (now : String) (c : Int) (hc : upd.credits = some c)
    (v : User)
    (hv : (db1.map (fun x => if x.id == id then applyUpdate upd now x else x)).find?
        (fun x => x.id == id) = some v) :
    v.credits = c := by
  rw [find?_map_update db1 id (applyUpdate upd now) (fun x => rfl)] at hv
  cases hf : db1.find? (fun x => x.id == id) with
  | none => rw [hf] at hv; simp at hv
  | some w =>
    rw [hf] at hv
    simp only [Option.map_some', Option.some.injEq] at hv
    rw [← hv]
    simp [applyUpdate, hc]

/-- Claim C5 (amended): every successful authentication — regardless of
whether the stored attributes were up to date — ends by unconditionally
writing the membership-mapped credit allotment to the user's row, so the
stored balance after login always equals
`mapMembershipToCredits (getMembershipLevel wpUser)`; credits consumed
between logins are overwritten back to the allotment by the login-time
sync. -/
theorem login_sync_overwrites_credits (env : Env) (db : Store)
    (username password : String) (reqIp : Option String)
    (wpUser : WordPressUser) (newId now : String) (nowSec : Int)
    (user : User) (tok : SignedToken) (db2 : Store) (v : User)
    (hu : username ≠ "") (hp : password ≠ "")
    (hok : authenticateWithWordPress env db username password reqIp (.ok wpUser)
        newId now nowSec = .ok (user, tok, db2))
    (hv : db2.find? (fun x => x.id == user.id) = some v) :
    v.credits = mapMembershipToCredits (getMembershipLevel wpUser) := by
  simp only [authenticateWithWordPress, verifyWordPressCredentials, hu, hp,
    decide_False, Bool.or_self, Bool.false_eq_true, if_false] at hok
  cases hrec : getUserOrCreateFromWordPress env db wpUser newId now with
  | error e => rw [hrec] at hok; simp at hok
  | ok p =>
    obtain ⟨u1, db1⟩ := p
    rw [hrec] at hok
    cases hact : u1.active with
    | false => simp [hact] at hok
    | true =>
      simp only [hact, Bool.not_true, Bool.false_eq_true, if_false] at hok
      cases hupd : updateUserMembership db1 u1.id (getMembershipLevel wpUser) now with
      | error e => rw [hupd] at hok; simp at hok
      | ok q =>
        obtain ⟨w, db2x⟩ := q
        rw [hupd] at hok
        simp only [Except.ok.injEq, Prod.mk.injEq] at hok
        obtain ⟨huser, -, hdb2⟩ := hok
        subst huser
        subst hdb2
        obtain ⟨upd, hc, hsh⟩ :=
          updateUserMembership_ok_shape db1 u1.id (getMembershipLevel wpUser)
            now w db2x hupd
        rw [hsh] at hv
        exact credits_of_find?_in_updated db1 u1.id upd now _ hc v hv

/-- Witness for C5 (amended): in the concrete run, the stored row after
login carries exactly the membership-mapped allotment. -/
theorem login_sync_overwrites_credits_witness :
    u5sync.credits = mapMembershipToCredits (getMembershipLevel wpC5) :=
  login_sync_overwrites_credits envProd dbC5 "a@x.com" "pw" none wpC5
    "nid" "t1" 0 u5 tokC5 [u5sync] u5sync (by decide) (by decide) rfl rfl

/-- Claim C9: issuing a credential and verifying it immediately returns the
input claims (subject id, email, role); verifying a credential whose expiry
lies in the past fails with the expired-credential error, which is a value
distinct and distinguishable from the invalid-credential error produced for
a bad signature. -/
theorem token_roundtrip_and_expiry (env : Env) (nowSec iat : Int)
    (u : JwtUserPayload) :
    (0 < env.JWT_EXPIRATION →
        verifyToken env nowSec (generateToken env nowSec u) = .ok u)
    ∧ ((generateToken env iat u).exp < nowSec →
        verifyToken env nowSec (generateToken env iat u)
          = .error (.unauthorized "Token expired"))
    ∧ (ApiErr.unauthorized "Token expired" ≠ ApiErr.unauthorized "Invalid token")
    ∧ (∀ t : SignedToken, t.secret ≠ env.JWT_SECRET →
        verifyToken env nowSec t = .error (.unauthorized "Invalid token")) := by
  refine ⟨?_, ?_, by decide, ?_⟩
  · intro hexp
    have h2 : ¬(nowSec + env.JWT_EXPIRATION ≤ nowSec) := by omega
    simp [verifyToken, generateToken, h2]
  · intro hpast
    have h2 : iat + env.JWT_EXPIRATION ≤ nowSec := by
      simpa [generateToken] using le_of_lt hpast
    simp [verifyToken, generateToken, h2]
  · intro t ht
    have hb : (t.secret != env.JWT_SECRET) = true := by simpa using ht
    simp [verifyToken, hb]

/-- Claims payload for the C9 witness. -/
def plC9 : JwtUserPayload := { id := "u9", email := "d@x.com", role := "user" }

/-- A token carrying a signature made with a different secret. -/
def badTokenC9 : SignedToken :=
  { payload := plC9, iat := 0, exp := 86400, secret := "wrong" }

/-- Witness for C9: concrete round-trip, expiry failure, and
signature-failure distinguishability. -/
theorem token_roundtrip_and_expiry_witness :
    verifyToken envProd 0 (generateToken envProd 0 plC9) = .ok plC9
    ∧ verifyToken envProd 100000 (generateToken envProd 0 plC9)
        = .error (.unauthorized "Token expired")
    ∧ verifyToken envProd 0 badTokenC9 = .error (.unauthorized "Invalid token") :=
  ⟨(token_roundtrip_and_expiry envProd 0 0 plC9).1 (by decide),
   (token_roundtrip_and_expiry envProd 100000 0 plC9).2.1 (by decide),
   (token_roundtrip_and_expiry envProd 0 0 plC9).2.2.2 badTokenC9 (by decide)⟩
